import Mathlib

/-!
Verification of the Learning Pulse persona-classification pipeline
(`be/file-processor/learning_pulse/`).

The Python source is shallowly embedded: Python floats are modelled as
rationals (`ℚ`), non-negative integer counters as `Nat`, optional values as
`Option`, and fallible code as `Except`.  Each definition mirrors one Python
function or pydantic model; where a Python f-string interpolates a number
into a human-readable message, the interpolation is rendered with `toString`
(the claims under study never inspect the numeric formatting of those
messages).
-/

namespace LearningPulse

/-- Engagement trend over the analysis period (`models.EngagementTrend`). -/
inductive EngagementTrend where
  | increasing
  | stable
  | declining
  deriving DecidableEq

/-- The ten Learning Persona labels, in the declaration order of
`models.LearningPersona`. -/
inductive LearningPersona where
  | skimmer
  | struggler
  | anxious
  | burnout
  | master
  | procrastinator
  | deep_diver
  | social_learner
  | perfectionist
  | lost
  deriving DecidableEq, BEq

/-- String value of each persona (`models.LearningPersona` enum values). -/
def LearningPersona.value : LearningPersona → String
  | .skimmer => "skimmer"
  | .struggler => "struggler"
  | .anxious => "anxious"
  | .burnout => "burnout"
  | .master => "master"
  | .procrastinator => "procrastinator"
  | .deep_diver => "deep_diver"
  | .social_learner => "social_learner"
  | .perfectionist => "perfectionist"
  | .lost => "lost"

/-- `list(LearningPersona)`: the enum members in declaration order. -/
def LearningPersona.values : List LearningPersona :=
  [.skimmer, .struggler, .anxious, .burnout, .master,
   .procrastinator, .deep_diver, .social_learner, .perfectionist, .lost]

/-- `LearningPersona(s)` as a total function: `some p` when `s` is one of the
ten enum values, `none` where Python raises `ValueError`. -/
def LearningPersona.ofValue? (s : String) : Option LearningPersona :=
  LearningPersona.values.find? (fun p => p.value = s)

/-- Chat interaction metrics (`models.ChatBehavior`); every pydantic field
carries `ge=0`, counters are `Nat`, the two float fields are non-negative
rationals (non-negativity recorded in `BehaviorData.WellTyped`). -/
structure ChatBehavior where
  total_messages : Nat := 0
  user_messages : Nat := 0
  assistant_messages : Nat := 0
  question_count : Nat := 0
  avg_message_length : ℚ := 0
  thumbs_up_count : Nat := 0
  thumbs_down_count : Nat := 0
  unique_sessions : Nat := 0
  total_session_duration_minutes : ℚ := 0

/-- Material consumption metrics (`models.MaterialInteraction`). -/
structure MaterialInteraction where
  total_time_spent_seconds : Nat := 0
  total_views : Nat := 0
  unique_materials_viewed : Nat := 0
  bookmark_count : Nat := 0
  avg_scroll_depth : ℚ := 0.5

/-- Temporal activity metrics (`models.ActivityPattern`). -/
structure ActivityPattern where
  active_days : Nat := 0
  total_sessions : Nat := 0
  peak_hour : Nat := 12
  late_night_sessions : Nat := 0
  weekend_sessions : Nat := 0
  total_weekday_sessions : Nat := 0
  daily_activity_variance : ℚ := 0

/-- Quiz metrics (`models.QuizPerformance`). -/
structure QuizPerformance where
  quiz_attempts : Nat := 0
  avg_score : ℚ := 0
  completion_rate : ℚ := 0

/-- Complete behavior data for a user (`models.BehaviorData`). -/
structure BehaviorData where
  user_id : String
  analysis_period_days : Nat := 30
  chat : ChatBehavior := {}
  material : MaterialInteraction := {}
  activity : ActivityPattern := {}
  quiz : Option QuizPerformance := none

/-- The pydantic `Field` constraints that are not already enforced by the
`Nat` typing of the counters: `analysis_period_days ≥ 1`,
`avg_message_length ≥ 0`, `total_session_duration_minutes ≥ 0`,
`avg_scroll_depth ∈ [0,1]`, `peak_hour ≤ 23`, `daily_activity_variance ≥ 0`,
and, when quiz data is present, `avg_score ∈ [0,100]` and
`completion_rate ∈ [0,1]`. -/
def BehaviorData.WellTyped (d : BehaviorData) : Prop :=
  1 ≤ d.analysis_period_days ∧
  0 ≤ d.chat.avg_message_length ∧
  0 ≤ d.chat.total_session_duration_minutes ∧
  0 ≤ d.material.avg_scroll_depth ∧ d.material.avg_scroll_depth ≤ 1 ∧
  d.activity.peak_hour ≤ 23 ∧
  0 ≤ d.activity.daily_activity_variance ∧
  (∀ q, d.quiz = some q →
    0 ≤ q.avg_score ∧ q.avg_score ≤ 100 ∧
    0 ≤ q.completion_rate ∧ q.completion_rate ≤ 1)

instance (d : BehaviorData) : Decidable d.WellTyped := by
  unfold BehaviorData.WellTyped
  have : Decidable (∀ q, d.quiz = some q →
      0 ≤ q.avg_score ∧ q.avg_score ≤ 100 ∧
      0 ≤ q.completion_rate ∧ q.completion_rate ≤ 1) := by
    cases hq : d.quiz with
    | none => exact isTrue (by simp)
    | some q =>
      by_cases h : 0 ≤ q.avg_score ∧ q.avg_score ≤ 100 ∧
          0 ≤ q.completion_rate ∧ q.completion_rate ≤ 1
      · exact isTrue (by intro q' hq'; cases hq'; exact h)
      · exact isFalse (fun hall => h (hall q rfl))
  exact instDecidableAnd

/-- Normalized feature vector (`models.FeatureVector`): 25 named scalar
fields, declared in the fixed field order of the source. -/
structure FeatureVector where
  chat_message_ratio : ℚ
  question_frequency : ℚ
  avg_message_length_norm : ℚ
  feedback_ratio : ℚ
  feedback_engagement : ℚ
  session_count_norm : ℚ
  messages_per_session : ℚ
  session_duration_norm : ℚ
  time_spent_norm : ℚ
  view_count_norm : ℚ
  material_diversity : ℚ
  avg_time_per_view_norm : ℚ
  bookmark_ratio : ℚ
  scroll_depth : ℚ
  material_engagement_score : ℚ
  active_days_ratio : ℚ
  session_frequency : ℚ
  consistency_score : ℚ
  late_night_ratio : ℚ
  weekend_ratio : ℚ
  peak_hour_norm : ℚ
  engagement_trend_encoded : ℚ
  quiz_score_norm : ℚ := 0.5
  quiz_completion_norm : ℚ := 0.5
  quiz_attempt_frequency : ℚ := 0

/-- `FeatureExtractor._safe_divide`. -/
def safeDivide (numerator denominator default : ℚ) : ℚ :=
  if denominator = 0 then default else numerator / denominator

/-- `FeatureExtractor._normalize`. -/
def normalize (value max_value : ℚ) : ℚ :=
  if max_value ≤ 0 then 0 else min 1 (max 0 (value / max_value))

/-- Normalization constants of `FeatureExtractor`. -/
def MAX_MESSAGE_LENGTH : ℚ := 500
def MAX_SESSIONS : ℚ := 100
def MAX_SESSION_DURATION : ℚ := 600
def MAX_TIME_SPENT : ℚ := 36000
def MAX_VIEWS : ℚ := 200
def MAX_SESSIONS_PER_DAY : ℚ := 10
def MAX_QUIZ_ATTEMPTS : ℚ := 50

/-- Result dictionary of `FeatureExtractor._extract_chat_features`. -/
structure ChatFeatures where
  chat_message_ratio : ℚ
  question_frequency : ℚ
  avg_message_length_norm : ℚ
  feedback_ratio : ℚ
  feedback_engagement : ℚ
  session_count_norm : ℚ
  messages_per_session : ℚ
  session_duration_norm : ℚ

/-- `FeatureExtractor._extract_chat_features`. -/
def extractChatFeatures (data : BehaviorData) : ChatFeatures :=
  let chat := data.chat
  let chat_message_ratio :=
    safeDivide (chat.user_messages : ℚ) (chat.total_messages : ℚ) 0.5
  let question_frequency :=
    safeDivide (chat.question_count : ℚ) (chat.user_messages : ℚ) 0.0
  let question_frequency := min 1.0 question_frequency
  let avg_message_length_norm := normalize chat.avg_message_length MAX_MESSAGE_LENGTH
  let total_feedback := chat.thumbs_up_count + chat.thumbs_down_count
  let feedback_ratio :=
    safeDivide (chat.thumbs_up_count : ℚ) (total_feedback : ℚ) 0.5
  let feedback_engagement :=
    safeDivide (total_feedback : ℚ) (chat.total_messages : ℚ) 0.0
  let feedback_engagement := min 1.0 feedback_engagement
  let session_count_norm := normalize (chat.unique_sessions : ℚ) MAX_SESSIONS
  let raw_messages_per_session :=
    safeDivide (chat.total_messages : ℚ) (chat.unique_sessions : ℚ) 0.0
  let messages_per_session := normalize raw_messages_per_session 20.0
  let session_duration_norm :=
    normalize chat.total_session_duration_minutes MAX_SESSION_DURATION
  { chat_message_ratio := chat_message_ratio
    question_frequency := question_frequency
    avg_message_length_norm := avg_message_length_norm
    feedback_ratio := feedback_ratio
    feedback_engagement := feedback_engagement
    session_count_norm := session_count_norm
    messages_per_session := messages_per_session
    session_duration_norm := session_duration_norm }

/-- Result dictionary of `FeatureExtractor._extract_material_features`. -/
structure MaterialFeatures where
  time_spent_norm : ℚ
  view_count_norm : ℚ
  material_diversity : ℚ
  avg_time_per_view_norm : ℚ
  bookmark_ratio : ℚ
  scroll_depth : ℚ
  material_engagement_score : ℚ

/-- `FeatureExtractor._extract_material_features`. -/
def extractMaterialFeatures (data : BehaviorData) : MaterialFeatures :=
  let material := data.material
  let time_spent_norm :=
    normalize (material.total_time_spent_seconds : ℚ) MAX_TIME_SPENT
  let view_count_norm := normalize (material.total_views : ℚ) MAX_VIEWS
  let material_diversity :=
    safeDivide (material.unique_materials_viewed : ℚ) (material.total_views : ℚ) 0.0
  let material_diversity := min 1.0 material_diversity
  let avg_time_per_view :=
    safeDivide (material.total_time_spent_seconds : ℚ) (material.total_views : ℚ) 0.0
  let avg_time_per_view_norm := normalize avg_time_per_view 600.0
  let bookmark_ratio :=
    safeDivide (material.bookmark_count : ℚ) (material.total_views : ℚ) 0.0
  let bookmark_ratio := min 1.0 bookmark_ratio
  let scroll_depth := material.avg_scroll_depth
  let scroll_depth := max 0.0 (min 1.0 scroll_depth)
  let material_engagement_score :=
    0.4 * time_spent_norm + 0.4 * scroll_depth + 0.2 * bookmark_ratio
  let material_engagement_score := max 0.0 (min 1.0 material_engagement_score)
  { time_spent_norm := time_spent_norm
    view_count_norm := view_count_norm
    material_diversity := material_diversity
    avg_time_per_view_norm := avg_time_per_view_norm
    bookmark_ratio := bookmark_ratio
    scroll_depth := scroll_depth
    material_engagement_score := material_engagement_score }

/-- `FeatureExtractor._calculate_engagement_trend`.  Each Python
`if/elif` scoring group is rendered as one nested conditional computing the
group's contribution to `(declining_score, increasing_score)`. -/
def calculateEngagementTrend (data : BehaviorData) : EngagementTrend :=
  let activity := data.activity
  if activity.total_sessions = 0 then
    EngagementTrend.stable
  else
    let session_frequency :=
      safeDivide (activity.total_sessions : ℚ) (activity.active_days : ℚ) 0.0
    let active_days_ratio :=
      safeDivide (activity.active_days : ℚ) (data.analysis_period_days : ℚ) 0.0
    let late_night_ratio :=
      safeDivide (activity.late_night_sessions : ℚ) (activity.total_sessions : ℚ) 0.0
    let variance_pair : Nat × Nat :=
      if activity.daily_activity_variance > 5.0 then (1, 0)
      else if activity.daily_activity_variance < 2.0 then (0, 1)
      else (0, 0)
    let active_days_pair : Nat × Nat :=
      if active_days_ratio < 0.3 ∧ activity.total_sessions > 0 then (1, 0)
      else if active_days_ratio > 0.6 then (0, 1)
      else (0, 0)
    let frequency_pair : Nat × Nat :=
      if session_frequency > 2.0 then (0, 1)
      else if session_frequency < 0.5 ∧ activity.active_days > 0 then (1, 0)
      else (0, 0)
    let late_night_pair : Nat × Nat :=
      if late_night_ratio > 0.4 then (1, 0) else (0, 0)
    let declining_score :=
      variance_pair.1 + active_days_pair.1 + frequency_pair.1 + late_night_pair.1
    let increasing_score :=
      variance_pair.2 + active_days_pair.2 + frequency_pair.2 + late_night_pair.2
    if declining_score ≥ 2 then EngagementTrend.declining
    else if increasing_score ≥ 2 then EngagementTrend.increasing
    else EngagementTrend.stable

/-- Result dictionary of `FeatureExtractor._extract_activity_features`. -/
structure ActivityFeatures where
  active_days_ratio : ℚ
  session_frequency : ℚ
  consistency_score : ℚ
  late_night_ratio : ℚ
  weekend_ratio : ℚ
  peak_hour_norm : ℚ
  engagement_trend_encoded : ℚ

/-- `FeatureExtractor._extract_activity_features`. -/
def extractActivityFeatures (data : BehaviorData) : ActivityFeatures :=
  let activity := data.activity
  let active_days_ratio :=
    safeDivide (activity.active_days : ℚ) (data.analysis_period_days : ℚ) 0.0
  let active_days_ratio := min 1.0 active_days_ratio
  let raw_session_frequency :=
    safeDivide (activity.total_sessions : ℚ) (activity.active_days : ℚ) 0.0
  let session_frequency := normalize raw_session_frequency MAX_SESSIONS_PER_DAY
  let MAX_VARIANCE : ℚ := 10.0
  let normalized_variance := normalize activity.daily_activity_variance MAX_VARIANCE
  let consistency_score := 1.0 - normalized_variance
  let consistency_score := max 0.0 (min 1.0 consistency_score)
  let late_night_ratio :=
    safeDivide (activity.late_night_sessions : ℚ) (activity.total_sessions : ℚ) 0.0
  let late_night_ratio := min 1.0 late_night_ratio
  let weekend_ratio :=
    safeDivide (activity.weekend_sessions : ℚ) (activity.total_sessions : ℚ) 0.0
  let weekend_ratio := min 1.0 weekend_ratio
  let peak_hour_norm :=
    if activity.peak_hour ≤ 23 then (activity.peak_hour : ℚ) / 23.0 else 1.0
  let peak_hour_norm := max 0.0 (min 1.0 peak_hour_norm)
  let engagement_trend := calculateEngagementTrend data
  let engagement_trend_encoded :=
    if engagement_trend = EngagementTrend.declining then 0.0
    else if engagement_trend = EngagementTrend.stable then 0.5
    else 1.0
  { active_days_ratio := active_days_ratio
    session_frequency := session_frequency
    consistency_score := consistency_score
    late_night_ratio := late_night_ratio
    weekend_ratio := weekend_ratio
    peak_hour_norm := peak_hour_norm
    engagement_trend_encoded := engagement_trend_encoded }

/-- Result dictionary of `FeatureExtractor._extract_quiz_features`. -/
structure QuizFeatures where
  quiz_score_norm : ℚ
  quiz_completion_norm : ℚ
  quiz_attempt_frequency : ℚ

/-- `FeatureExtractor._extract_quiz_features`. -/
def extractQuizFeatures (data : BehaviorData) : QuizFeatures :=
  match data.quiz with
  | none =>
    { quiz_score_norm := 0.5
      quiz_completion_norm := 0.5
      quiz_attempt_frequency := 0.0 }
  | some quiz =>
    let quiz_score_norm :=
      if quiz.quiz_attempts = 0 then 0.5
      else max 0.0 (min 1.0 (quiz.avg_score / 100.0))
    let quiz_completion_norm :=
      if quiz.quiz_attempts = 0 then 0.5
      else max 0.0 (min 1.0 quiz.completion_rate)
    let quiz_attempt_frequency :=
      normalize (quiz.quiz_attempts : ℚ) MAX_QUIZ_ATTEMPTS
    { quiz_score_norm := quiz_score_norm
      quiz_completion_norm := quiz_completion_norm
      quiz_attempt_frequency := quiz_attempt_frequency }

/-- `FeatureExtractor.extract`: combines the four category extractions into
the 25-field `FeatureVector`. -/
def extract (data : BehaviorData) : FeatureVector :=
  let chat_features := extractChatFeatures data
  let material_features := extractMaterialFeatures data
  let activity_features := extractActivityFeatures data
  let quiz_features := extractQuizFeatures data
  { chat_message_ratio := chat_features.chat_message_ratio
    question_frequency := chat_features.question_frequency
    avg_message_length_norm := chat_features.avg_message_length_norm
    feedback_ratio := chat_features.feedback_ratio
    feedback_engagement := chat_features.feedback_engagement
    session_count_norm := chat_features.session_count_norm
    messages_per_session := chat_features.messages_per_session
    session_duration_norm := chat_features.session_duration_norm
    time_spent_norm := material_features.time_spent_norm
    view_count_norm := material_features.view_count_norm
    material_diversity := material_features.material_diversity
    avg_time_per_view_norm := material_features.avg_time_per_view_norm
    bookmark_ratio := material_features.bookmark_ratio
    scroll_depth := material_features.scroll_depth
    material_engagement_score := material_features.material_engagement_score
    active_days_ratio := activity_features.active_days_ratio
    session_frequency := activity_features.session_frequency
    consistency_score := activity_features.consistency_score
    late_night_ratio := activity_features.late_night_ratio
    weekend_ratio := activity_features.weekend_ratio
    peak_hour_norm := activity_features.peak_hour_norm
    engagement_trend_encoded := activity_features.engagement_trend_encoded
    quiz_score_norm := quiz_features.quiz_score_norm
    quiz_completion_norm := quiz_features.quiz_completion_norm
    quiz_attempt_frequency := quiz_features.quiz_attempt_frequency }

/-- Raw ML classification result (`models.ClassificationResult`); the
probability map is an association list from persona names to rationals. -/
structure ClassificationResult where
  persona : LearningPersona
  confidence : ℚ
  probabilities : List (String × ℚ) := []
  is_low_confidence : Bool

/-- Record of a guardrail override (`models.GuardrailOverride`). -/
structure GuardrailOverride where
  original_persona : LearningPersona
  final_persona : LearningPersona
  rule_triggered : String
  reason : String

/-- Flags raised by guardrails without overriding (`models.GuardrailFlags`). -/
structure GuardrailFlags where
  potential_anxious : Bool := false
  potential_burnout : Bool := false
  needs_attention : Bool := false
  flag_reasons : List String := []

/-- Result after applying logic guardrails (`models.GuardrailResult`). -/
structure GuardrailResult where
  persona : LearningPersona
  confidence : ℚ
  was_overridden : Bool
  override : Option GuardrailOverride := none
  flags : GuardrailFlags := {}

/-- Override and flag thresholds of `guardrails.LogicGuardrails`. -/
def MASTER_MIN_QUIZ_SCORE : ℚ := 50.0
def SKIMMER_MIN_TIME_PER_MATERIAL : ℚ := 300
def DEEP_DIVER_MIN_MATERIALS : Nat := 3
def ANXIOUS_LATE_NIGHT_THRESHOLD : ℚ := 0.5
def HIGH_SESSION_FREQUENCY_THRESHOLD : ℚ := 3.0

/-- `LogicGuardrails._check_master_override`. -/
def checkMasterOverride (prediction : ClassificationResult)
    (quiz_score : Option ℚ) : Option GuardrailOverride :=
  if prediction.persona ≠ LearningPersona.master then none
  else
    match quiz_score with
    | some q =>
      if q < MASTER_MIN_QUIZ_SCORE then
        some { original_persona := LearningPersona.master
               final_persona := LearningPersona.struggler
               rule_triggered := "master_low_quiz_score"
               reason := "Quiz score (" ++ toString q ++
                 "%) is below 50.0% threshold for Master classification" }
      else none
    | none => none

/-- `LogicGuardrails._check_skimmer_reconsideration`. -/
def checkSkimmerReconsideration (prediction : ClassificationResult)
    (avg_time_per_material : ℚ) : Option GuardrailOverride :=
  if prediction.persona ≠ LearningPersona.skimmer then none
  else if avg_time_per_material > SKIMMER_MIN_TIME_PER_MATERIAL then
    some { original_persona := LearningPersona.skimmer
           final_persona := LearningPersona.deep_diver
           rule_triggered := "skimmer_high_time_per_material"
           reason := "Average time per material (" ++ toString avg_time_per_material ++
             "s) exceeds 300s, reconsidering classification" }
  else none

/-- `LogicGuardrails._check_deep_diver_override`. -/
def checkDeepDiverOverride (prediction : ClassificationResult)
    (total_materials_viewed : Nat) : Option GuardrailOverride :=
  if prediction.persona ≠ LearningPersona.deep_diver then none
  else if total_materials_viewed < DEEP_DIVER_MIN_MATERIALS then
    some { original_persona := LearningPersona.deep_diver
           final_persona := LearningPersona.lost
           rule_triggered := "deep_diver_low_material_count"
           reason := "Total materials viewed (" ++ toString total_materials_viewed ++
             ") is below 3 minimum for Deep Diver classification" }
  else none

/-- `LogicGuardrails._check_anxious_flags`. -/
def checkAnxiousFlags (features : FeatureVector) : List String :=
  if features.late_night_ratio > ANXIOUS_LATE_NIGHT_THRESHOLD then
    if features.session_frequency > 0.3 then
      ["High late-night activity (" ++ toString features.late_night_ratio ++
        ") combined with frequent sessions indicates potential anxiety"]
    else []
  else []

/-- `LogicGuardrails._check_burnout_flags`. -/
def checkBurnoutFlags (features : FeatureVector)
    (previous_persona : Option LearningPersona) : List String :=
  let is_declining := features.engagement_trend_encoded < 0.25
  if is_declining ∧ previous_persona = some LearningPersona.master then
    ["Declining engagement trend from previous Master classification indicates potential burnout"]
  else []

/-- `LogicGuardrails.apply`: the three override rules are tried in priority
order (each only when no earlier rule produced an override), then the two
flag rules run unconditionally. -/
def applyGuardrails (prediction : ClassificationResult)
    (features : FeatureVector)
    (quiz_score : Option ℚ := none)
    (previous_persona : Option LearningPersona := none)
    (total_materials_viewed : Nat := 0)
    (avg_time_per_material : ℚ := 0.0) : GuardrailResult :=
  let override :=
    match checkMasterOverride prediction quiz_score with
    | some o => some o
    | none =>
      match checkDeepDiverOverride prediction total_materials_viewed with
      | some o => some o
      | none => checkSkimmerReconsideration prediction avg_time_per_material
  let final_persona :=
    match override with
    | some o => o.final_persona
    | none => prediction.persona
  let was_overridden := override.isSome
  let anxious_flags := checkAnxiousFlags features
  let burnout_flags := checkBurnoutFlags features previous_persona
  let flag_reasons := anxious_flags ++ burnout_flags
  { persona := final_persona
    confidence := prediction.confidence
    was_overridden := was_overridden
    override := override
    flags :=
      { potential_anxious := decide (anxious_flags.length > 0)
        potential_burnout := decide (burnout_flags.length > 0)
        needs_attention := decide (flag_reasons.length > 0) || was_overridden
        flag_reasons := flag_reasons } }

/-- Raw output of the statistical model: either an opaque string label or an
integer class index (`PersonaClassifier._convert_to_persona` accepts
both). -/
inductive PredictedClass where
  | label (s : String)
  | index (n : Int)

/-- `PersonaClassifier._convert_to_persona`, parameterized by the
`_persona_names` index-to-name mapping loaded from metadata (empty list when
no mapping was loaded).  Paths where Python raises `ValueError` return
`Except.error`. -/
def convertToPersona (persona_names : List String)
    (predicted_class : PredictedClass) : Except String LearningPersona :=
  match predicted_class with
  | .label s =>
    match LearningPersona.ofValue? s with
    | some p => Except.ok p
    | none => Except.error (s ++ " is not a valid LearningPersona")
  | .index n =>
    if persona_names ≠ [] ∧ 0 ≤ n ∧ n < (persona_names.length : Int) then
      let persona_name := persona_names.getD n.toNat ""
      match LearningPersona.ofValue? persona_name with
      | some p => Except.ok p
      | none => Except.error (persona_name ++ " is not a valid LearningPersona")
    else if 0 ≤ n ∧ n < (LearningPersona.values.length : Int) then
      LearningPersona.values.getD n.toNat LearningPersona.skimmer |> Except.ok
    else
      Except.error ("Cannot convert " ++ toString n ++ " to LearningPersona")

/-- Single actionable recommendation (`models.Recommendation`). -/
structure Recommendation where
  id : String
  title : String
  description : String
  action_type : String
  priority : Nat

/-- Persona-keyed recommendation bundle (`models.PersonaRecommendations`);
the `ui_hints` dictionary is an association list. -/
structure PersonaRecommendations where
  persona : LearningPersona
  summary : String
  recommendations : List Recommendation
  ui_hints : List (String × String) := []

/-- `RecommendationEngine._get_struggler_recommendations`. -/
def strugglerRecommendations : PersonaRecommendations :=
  { persona := LearningPersona.struggler
    summary := "You seem to be working hard but facing challenges. Let\x27s simplify things and provide more support."
    recommendations := [
      { id := "struggler_simplified_materials"
        title := "Access Simplified Materials"
        description := "We\x27ve prepared easier-to-understand versions of the content. Start with these simplified materials to build a stronger foundation before tackling advanced topics."
        action_type := "content"
        priority := 1 },
      { id := "struggler_more_examples"
        title := "Explore More Examples"
        description := "Practice makes perfect! Check out additional worked examples that break down complex concepts step-by-step."
        action_type := "content"
        priority := 2 },
      { id := "struggler_llm_explanations"
        title := "Ask AI for Explanations"
        description := "Use the AI assistant to get personalized explanations. Try asking \x27Can you explain this concept in simpler terms?\x27 or \x27Give me an analogy for this.\x27"
        action_type := "feature"
        priority := 3 },
      { id := "struggler_review_basics"
        title := "Review Foundational Concepts"
        description := "Sometimes going back to basics helps. We\x27ve identified prerequisite topics that might help strengthen your understanding."
        action_type := "content"
        priority := 4 }]
    ui_hints := [("highlight_ai_chat", "true"),
                 ("show_difficulty_filter", "true"),
                 ("suggest_prerequisites", "true")] }

/-- `RecommendationEngine._get_skimmer_recommendations`. -/
def skimmerRecommendations : PersonaRecommendations :=
  { persona := LearningPersona.skimmer
    summary := "You\x27re covering a lot of ground quickly! Let\x27s help you engage more deeply with the material."
    recommendations := [
      { id := "skimmer_engagement_prompts"
        title := "Try Interactive Checkpoints"
        description := "We\x27ve added quick comprehension checks throughout the material. These short prompts help ensure you\x27re absorbing key concepts as you go."
        action_type := "ui"
        priority := 1 },
      { id := "skimmer_quizzes"
        title := "Take Quick Quizzes"
        description := "Test your understanding with short quizzes after each section. They only take a few minutes and help reinforce what you\x27ve learned."
        action_type := "feature"
        priority := 2 },
      { id := "skimmer_summary_highlights"
        title := "Review Key Highlights"
        description := "Check out the highlighted summaries and key takeaways for each material. These capture the most important points you shouldn\x27t miss."
        action_type := "content"
        priority := 3 },
      { id := "skimmer_slow_down_reminder"
        title := "Pace Yourself"
        description := "Quality over quantity! Try spending at least 5 minutes on each material to fully understand the concepts before moving on."
        action_type := "notification"
        priority := 4 }]
    ui_hints := [("show_reading_progress", "true"),
                 ("enable_comprehension_checks", "true"),
                 ("highlight_key_points", "true")] }

/-- `RecommendationEngine._get_anxious_recommendations`. -/
def anxiousRecommendations : PersonaRecommendations :=
  { persona := LearningPersona.anxious
    summary := "Learning can feel overwhelming sometimes. Let\x27s create a calmer, more supportive environment for you."
    recommendations := [
      { id := "anxious_calming_ui"
        title := "Enable Calm Mode"
        description := "Switch to our calming interface with softer colors and reduced visual clutter. This helps create a more relaxed learning environment."
        action_type := "ui"
        priority := 1 },
      { id := "anxious_progress_indicators"
        title := "Track Your Progress"
        description := "See how far you\x27ve come! Our progress tracker shows your achievements and helps you visualize your learning journey."
        action_type := "ui"
        priority := 2 },
      { id := "anxious_encouragement"
        title := "You\x27re Doing Great!"
        description := "Remember: learning is a journey, not a race. Every question you ask and every material you review brings you closer to mastery."
        action_type := "notification"
        priority := 3 },
      { id := "anxious_breathing_break"
        title := "Take a Mindful Break"
        description := "Feeling stressed? Try our 2-minute breathing exercise to reset and refocus before continuing your studies."
        action_type := "feature"
        priority := 4 }]
    ui_hints := [("enable_calm_mode", "true"),
                 ("show_encouragement_messages", "true"),
                 ("reduce_notifications", "true"),
                 ("soft_color_scheme", "true")] }

/-- `RecommendationEngine._get_burnout_recommendations`. -/
def burnoutRecommendations : PersonaRecommendations :=
  { persona := LearningPersona.burnout
    summary := "You\x27ve been working hard! It\x27s important to rest and recharge. Let\x27s help you maintain a sustainable learning pace."
    recommendations := [
      { id := "burnout_break_reminder"
        title := "Take Regular Breaks"
        description := "Schedule 5-minute breaks every 25 minutes using the Pomodoro technique. Your brain needs rest to consolidate learning."
        action_type := "notification"
        priority := 1 },
      { id := "burnout_lighter_content"
        title := "Try Lighter Content"
        description := "Start with summary materials or video overviews before diving into detailed content. Ease back into learning gradually."
        action_type := "content"
        priority := 2 },
      { id := "burnout_celebrate_achievements"
        title := "Celebrate Your Progress"
        description := "Look at how much you\x27ve accomplished! Review your achievements from the past week and give yourself credit for your hard work."
        action_type := "ui"
        priority := 3 },
      { id := "burnout_reduce_workload"
        title := "Set Realistic Goals"
        description := "Consider reducing your daily learning goals temporarily. It\x27s better to learn consistently at a sustainable pace than to burn out."
        action_type := "feature"
        priority := 4 }]
    ui_hints := [("enable_break_reminders", "true"),
                 ("show_achievements", "true"),
                 ("suggest_lighter_content", "true"),
                 ("reduce_daily_goals", "true")] }

/-- `RecommendationEngine._get_master_recommendations`. -/
def masterRecommendations : PersonaRecommendations :=
  { persona := LearningPersona.master
    summary := "Excellent work! You\x27re mastering the material. Let\x27s challenge you further and help you share your knowledge."
    recommendations := [
      { id := "master_advanced_materials"
        title := "Explore Advanced Content"
        description := "Ready for more? Access advanced materials and deep-dive resources that go beyond the basics."
        action_type := "content"
        priority := 1 },
      { id := "master_peer_tutoring"
        title := "Help Fellow Learners"
        description := "Your understanding is strong! Consider joining our peer tutoring program to help others while reinforcing your own knowledge."
        action_type := "feature"
        priority := 2 },
      { id := "master_challenge_content"
        title := "Take on Challenges"
        description := "Test your limits with challenging problems and advanced exercises. Push yourself to the next level!"
        action_type := "content"
        priority := 3 },
      { id := "master_explore_related"
        title := "Explore Related Topics"
        description := "Broaden your expertise by exploring related subjects and interdisciplinary connections."
        action_type := "content"
        priority := 4 }]
    ui_hints := [("show_advanced_filter", "true"),
                 ("highlight_challenges", "true"),
                 ("enable_tutoring_badge", "true")] }

/-- `RecommendationEngine._get_procrastinator_recommendations`. -/
def procrastinatorRecommendations : PersonaRecommendations :=
  { persona := LearningPersona.procrastinator
    summary := "We notice you tend to study in bursts. Let\x27s help you build more consistent habits with small, manageable steps."
    recommendations := [
      { id := "procrastinator_deadline_reminders"
        title := "Set Up Deadline Alerts"
        description := "Enable smart reminders that notify you well before deadlines. Get gentle nudges to start early and avoid last-minute stress."
        action_type := "notification"
        priority := 1 },
      { id := "procrastinator_micro_tasks"
        title := "Break It Into Micro-Tasks"
        description := "Large tasks feel overwhelming. We\x27ve broken down your learning into small, 10-minute chunks that are easy to start."
        action_type := "feature"
        priority := 2 },
      { id := "procrastinator_progress_tracking"
        title := "Track Daily Progress"
        description := "Build momentum with our daily streak tracker. Even 15 minutes a day adds up to significant progress over time."
        action_type := "ui"
        priority := 3 },
      { id := "procrastinator_schedule_sessions"
        title := "Schedule Study Sessions"
        description := "Block out specific times for studying in your calendar. Treating learning like an appointment makes it harder to skip."
        action_type := "feature"
        priority := 4 }]
    ui_hints := [("show_deadline_countdown", "true"),
                 ("enable_streak_tracker", "true"),
                 ("show_micro_tasks", "true"),
                 ("calendar_integration", "true")] }

/-- `RecommendationEngine._get_deep_diver_recommendations`. -/
def deepDiverRecommendations : PersonaRecommendations :=
  { persona := LearningPersona.deep_diver
    summary := "You love going deep into topics! Let\x27s fuel your curiosity with more resources and research opportunities."
    recommendations := [
      { id := "deep_diver_supplementary_resources"
        title := "Access Supplementary Resources"
        description := "Explore additional readings, research papers, and external resources that expand on the topics you\x27re studying."
        action_type := "content"
        priority := 1 },
      { id := "deep_diver_deep_content"
        title := "Unlock Deep-Dive Content"
        description := "Access our extended materials with detailed explanations, case studies, and comprehensive analyses."
        action_type := "content"
        priority := 2 },
      { id := "deep_diver_research_opportunities"
        title := "Join Research Projects"
        description := "Your thorough approach is perfect for research! Explore opportunities to contribute to ongoing projects or start your own investigation."
        action_type := "feature"
        priority := 3 },
      { id := "deep_diver_expert_connections"
        title := "Connect with Experts"
        description := "Get access to expert Q&A sessions and office hours where you can discuss advanced topics in depth."
        action_type := "feature"
        priority := 4 }]
    ui_hints := [("show_related_resources", "true"),
                 ("enable_research_mode", "true"),
                 ("show_citation_links", "true")] }

/-- `RecommendationEngine._get_social_learner_recommendations`. -/
def socialLearnerRecommendations : PersonaRecommendations :=
  { persona := LearningPersona.social_learner
    summary := "You thrive when learning with others! Let\x27s connect you with study groups and collaborative opportunities."
    recommendations := [
      { id := "social_learner_study_groups"
        title := "Join Study Groups"
        description := "Connect with peers studying the same material. Join or create study groups to learn together and share insights."
        action_type := "feature"
        priority := 1 },
      { id := "social_learner_discussion_forums"
        title := "Participate in Discussions"
        description := "Join our discussion forums to ask questions, share perspectives, and learn from diverse viewpoints."
        action_type := "feature"
        priority := 2 },
      { id := "social_learner_collaborative_activities"
        title := "Try Collaborative Projects"
        description := "Work on group projects and collaborative exercises. Learning together often leads to deeper understanding."
        action_type := "feature"
        priority := 3 },
      { id := "social_learner_peer_review"
        title := "Exchange Peer Feedback"
        description := "Share your work and get feedback from peers. Reviewing others\x27 work also helps reinforce your own learning."
        action_type := "feature"
        priority := 4 }]
    ui_hints := [("show_active_groups", "true"),
                 ("enable_chat_features", "true"),
                 ("highlight_collaborative_pods", "true")] }

/-- `RecommendationEngine._get_perfectionist_recommendations`. -/
def perfectionistRecommendations : PersonaRecommendations :=
  { persona := LearningPersona.perfectionist
    summary := "Your attention to detail is admirable! Let\x27s help you balance thoroughness with progress."
    recommendations := [
      { id := "perfectionist_time_boxing"
        title := "Try Time-Boxing"
        description := "Set time limits for each topic or task. When the timer ends, move on. You can always revisit later if needed."
        action_type := "feature"
        priority := 1 },
      { id := "perfectionist_good_enough"
        title := "Embrace \x27Good Enough\x27"
        description := "Aim for 80% understanding before moving on. Perfection isn\x27t required for progress - you\x27ll reinforce concepts through practice."
        action_type := "notification"
        priority := 2 },
      { id := "perfectionist_celebrate_progress"
        title := "Celebrate Your Progress"
        description := "Focus on how far you\x27ve come, not just what\x27s left. Every completed section is an achievement worth recognizing."
        action_type := "ui"
        priority := 3 },
      { id := "perfectionist_limit_reviews"
        title := "Limit Review Cycles"
        description := "Set a maximum of 2 review passes per material. Trust your understanding and move forward with confidence."
        action_type := "feature"
        priority := 4 }]
    ui_hints := [("show_time_tracker", "true"),
                 ("enable_progress_milestones", "true"),
                 ("limit_review_prompts", "true")] }

/-- `RecommendationEngine._get_lost_recommendations`. -/
def lostRecommendations : PersonaRecommendations :=
  { persona := LearningPersona.lost
    summary := "Finding your way can be challenging. Let\x27s create a clear path and connect you with support."
    recommendations := [
      { id := "lost_guided_paths"
        title := "Follow a Guided Learning Path"
        description := "We\x27ve created a structured learning path just for you. Follow the recommended sequence to build knowledge step-by-step."
        action_type := "content"
        priority := 1 },
      { id := "lost_mentor_matching"
        title := "Get Matched with a Mentor"
        description := "Connect with an experienced mentor who can guide you, answer questions, and help you stay on track."
        action_type := "feature"
        priority := 2 },
      { id := "lost_foundational_materials"
        title := "Start with Foundations"
        description := "Begin with our foundational materials that cover the basics. Building a strong foundation makes everything else easier."
        action_type := "content"
        priority := 3 },
      { id := "lost_goal_setting"
        title := "Set Clear Learning Goals"
        description := "Define what you want to achieve. Having clear goals helps you focus and measure your progress."
        action_type := "feature"
        priority := 4 }]
    ui_hints := [("show_learning_path", "true"),
                 ("enable_mentor_chat", "true"),
                 ("highlight_prerequisites", "true"),
                 ("show_goal_tracker", "true")] }

/-- The `_persona_recommendations` dictionary built in
`RecommendationEngine.__init__`: it is keyed by exactly the ten
`LearningPersona` members. -/
def personaRecommendationsTable : List (LearningPersona × PersonaRecommendations) :=
  [(LearningPersona.struggler, strugglerRecommendations),
   (LearningPersona.skimmer, skimmerRecommendations),
   (LearningPersona.anxious, anxiousRecommendations),
   (LearningPersona.burnout, burnoutRecommendations),
   (LearningPersona.master, masterRecommendations),
   (LearningPersona.procrastinator, procrastinatorRecommendations),
   (LearningPersona.deep_diver, deepDiverRecommendations),
   (LearningPersona.social_learner, socialLearnerRecommendations),
   (LearningPersona.perfectionist, perfectionistRecommendations),
   (LearningPersona.lost, lostRecommendations)]

/-- Argument type of `RecommendationEngine.get_recommendations`: Python is
dynamically typed, so beside the ten closed enum members a caller may pass
any other value; `unknown` stands for such a non-member key. -/
inductive PersonaKey where
  | known (p : LearningPersona)
  | unknown (s : String)

/-- `RecommendationEngine.get_recommendations`: dictionary-membership test
followed by lookup; a key outside the dictionary raises `ValueError`
(modelled as `Except.error`). -/
def getRecommendations (persona : PersonaKey) : Except String PersonaRecommendations :=
  match persona with
  | .known p =>
    match personaRecommendationsTable.lookup p with
    | some r => Except.ok r
    | none => Except.error "Unknown persona"
  | .unknown s => Except.error ("Unknown persona: " ++ s)

/-- Guardrail-input computation and guardrail invocation of the
`predict_persona` endpoint (`router.py` lines 196-218): the classifier is an
opaque parameter, `avg_time_per_material` is
`total_time_spent_seconds / total_views` (0.0 when `total_views` is 0),
`total_materials_viewed` is `material.unique_materials_viewed`, and an
unparseable `previous_persona` string degrades to `none`. -/
def predictPersonaGuardrail (classify : FeatureVector → ClassificationResult)
    (behavior_data : BehaviorData) (quiz_score : Option ℚ)
    (previous_persona_str : Option String) : GuardrailResult :=
  let features := extract behavior_data
  let classification := classify features
  let material := behavior_data.material
  let avg_time_per_material :=
    if material.total_views > 0 then
      (material.total_time_spent_seconds : ℚ) / (material.total_views : ℚ)
    else 0.0
  let previous_persona :=
    match previous_persona_str with
    | some s => LearningPersona.ofValue? s
    | none => none
  applyGuardrails classification features quiz_score previous_persona
    material.unique_materials_viewed avg_time_per_material

/-! Helper lemmas about the numeric primitives. -/

theorem normalize_nonneg (value max_value : ℚ) : 0 ≤ normalize value max_value := by
  unfold normalize
  split_ifs with h
  · exact le_refl 0
  · exact le_min (by norm_num) (le_max_left 0 _)

theorem normalize_le_one (value max_value : ℚ) : normalize value max_value ≤ 1 := by
  unfold normalize
  split_ifs with h
  · norm_num
  · exact min_le_left 1 _

theorem safeDivide_nonneg {numerator denominator default : ℚ}
    (hn : 0 ≤ numerator) (hd : 0 ≤ denominator) (hdef : 0 ≤ default) :
    0 ≤ safeDivide numerator denominator default := by
  unfold safeDivide
  split_ifs with h
  · exact hdef
  · exact div_nonneg hn hd

theorem clamp01_eq_self {x : ℚ} (h0 : 0 ≤ x) (h1 : x ≤ 1) :
    max 0 (min 1 x) = x := by
  rw [min_eq_right h1, max_eq_right h0]

/-- The behavior record exhibiting the uncapped chat-message ratio:
well-typed per the pydantic constraints (`user_messages` and
`total_messages` are independent non-negative counters), with more user
messages than total messages. -/
def c1FailingInput : BehaviorData :=
  { user_id := "user-1"
    chat := { total_messages := 1, user_messages := 2 } }

/-- C1: REFUTED ON THE CODE (code bug).  The claim says extraction always
succeeds with every `FeatureVector` field in `[0,1]` and that every ratio
whose sub-count can exceed its total is capped at 1.0.  But
`_extract_chat_features` computes `chat_message_ratio` with `_safe_divide`
and no cap, so the well-typed input with `user_messages = 2,
total_messages = 1` yields `chat_message_ratio = 2.0 > 1.0`; the pydantic
bound `le=1.0` on `FeatureVector.chat_message_ratio` then makes `extract`
raise a `ValidationError` instead of succeeding. -/
theorem c1_chat_message_ratio_uncapped :
    c1FailingInput.WellTyped ∧
    (extract c1FailingInput).chat_message_ratio = 2 ∧
    1 < (extract c1FailingInput).chat_message_ratio := by
  refine ⟨?_, ?_, ?_⟩
  · refine ⟨by norm_num [c1FailingInput], by norm_num [c1FailingInput],
      by norm_num [c1FailingInput], by norm_num [c1FailingInput],
      by norm_num [c1FailingInput], by norm_num [c1FailingInput],
      by norm_num [c1FailingInput], ?_⟩
    intro q hq
    simp [c1FailingInput] at hq
  · norm_num [extract, extractChatFeatures, c1FailingInput, safeDivide]
  · norm_num [extract, extractChatFeatures, c1FailingInput, safeDivide]

/-- All-zero chat behavior and absent quiz record (every field at its
pydantic default). -/
def c4AllZeroInput : BehaviorData := { user_id := "user-4" }

/-- A behavior record whose quiz record is present but has
`quiz_attempts = 0`, with arbitrary score and completion values. -/
def c4ZeroAttemptsInput (avg_score completion_rate : ℚ) : BehaviorData :=
  { user_id := "user-4"
    quiz := some { quiz_attempts := 0
                   avg_score := avg_score
                   completion_rate := completion_rate } }

/-- C4: missing-data defaults follow the ratio-vs-count policy.  For an
all-zero `ChatBehavior`: `chat_message_ratio = 0.5`,
`question_frequency = 0.0`, `feedback_ratio = 0.5`,
`messages_per_session = 0.0`.  With the quiz record absent:
`quiz_score_norm = 0.5`, `quiz_completion_norm = 0.5`,
`quiz_attempt_frequency = 0.0`.  With a quiz record present but
`quiz_attempts = 0`: `quiz_score_norm` and `quiz_completion_norm` are `0.5`
regardless of the supplied `avg_score` and `completion_rate`. -/
theorem c4_missing_data_defaults :
    (extract c4AllZeroInput).chat_message_ratio = 0.5 ∧
    (extract c4AllZeroInput).question_frequency = 0 ∧
    (extract c4AllZeroInput).feedback_ratio = 0.5 ∧
    (extract c4AllZeroInput).messages_per_session = 0 ∧
    (extract c4AllZeroInput).quiz_score_norm = 0.5 ∧
    (extract c4AllZeroInput).quiz_completion_norm = 0.5 ∧
    (extract c4AllZeroInput).quiz_attempt_frequency = 0 ∧
    (∀ avg_score completion_rate : ℚ,
      (extract (c4ZeroAttemptsInput avg_score completion_rate)).quiz_score_norm = 0.5 ∧
      (extract (c4ZeroAttemptsInput avg_score completion_rate)).quiz_completion_norm = 0.5) := by
  refine ⟨?_, ?_, ?_, ?_, ?_, ?_, ?_, ?_⟩
  case refine_8 =>
    intro avg_score completion_rate
    constructor <;> norm_num [extract, extractQuizFeatures, c4ZeroAttemptsInput]
  all_goals
    norm_num [extract, extractChatFeatures, extractQuizFeatures, c4AllZeroInput,
      safeDivide, normalize]

/-- C7: guardrails never adjust confidence — the `confidence` field of the
`GuardrailResult` is the original classification confidence for every
possible input, whether or not an override or flag fired. -/
theorem c7_confidence_unchanged (prediction : ClassificationResult)
    (features : FeatureVector) (quiz_score : Option ℚ)
    (previous_persona : Option LearningPersona)
    (total_materials_viewed : Nat) (avg_time_per_material : ℚ) :
    (applyGuardrails prediction features quiz_score previous_persona
      total_materials_viewed avg_time_per_material).confidence =
      prediction.confidence := rfl

/-- Rule 1 condition as written in the claim: a quiz score is provided and
it is strictly below 50.0. -/
def quizScoreProvidedBelow50 (quiz_score : Option ℚ) : Prop :=
  ∃ q, quiz_score = some q ∧ q < 50

instance : (quiz_score : Option ℚ) → Decidable (quizScoreProvidedBelow50 quiz_score)
  | none => isFalse (by simp [quizScoreProvidedBelow50])
  | some q =>
    if h : q < 50 then isTrue ⟨q, rfl, h⟩
    else isFalse (by simp [quizScoreProvidedBelow50, h])

/-- The three guardrail override rules exactly as the claim states them:
checked in this order, the first whose persona-match and condition both hold
wins, all thresholds strict.  Each fired rule is summarized as
(original persona, final persona, rule id). -/
def overrideRulesSpec (persona : LearningPersona) (quiz_score : Option ℚ)
    (total_materials_viewed : Nat) (avg_time_per_material : ℚ) :
    Option (LearningPersona × LearningPersona × String) :=
  if persona = LearningPersona.master ∧ quizScoreProvidedBelow50 quiz_score then
    some (LearningPersona.master, LearningPersona.struggler, "master_low_quiz_score")
  else if persona = LearningPersona.deep_diver ∧ total_materials_viewed < 3 then
    some (LearningPersona.deep_diver, LearningPersona.lost, "deep_diver_low_material_count")
  else if persona = LearningPersona.skimmer ∧ avg_time_per_material > 300 then
    some (LearningPersona.skimmer, LearningPersona.deep_diver, "skimmer_high_time_per_material")
  else none

/-- C2: for every input, the override produced by `LogicGuardrails.apply`
agrees with the claim's priority-ordered first-match rule table
(`overrideRulesSpec`), and the final persona is the overridden one when a
rule fires and the original prediction otherwise.  Since the spec table uses
strict `<` and `>`, boundary values (quiz score exactly 50.0, materials
exactly 3, time exactly 300.0) produce `none`, and since it returns an
`Option`, at most one override fires per call. -/
theorem c2_override_rules_match_spec (prediction : ClassificationResult)
    (features : FeatureVector) (quiz_score : Option ℚ)
    (previous_persona : Option LearningPersona)
    (total_materials_viewed : Nat) (avg_time_per_material : ℚ) :
    ((applyGuardrails prediction features quiz_score previous_persona
        total_materials_viewed avg_time_per_material).override).map
        (fun o => (o.original_persona, o.final_persona, o.rule_triggered)) =
      overrideRulesSpec prediction.persona quiz_score total_materials_viewed
        avg_time_per_material ∧
    (applyGuardrails prediction features quiz_score previous_persona
        total_materials_viewed avg_time_per_material).persona =
      (((overrideRulesSpec prediction.persona quiz_score total_materials_viewed
          avg_time_per_material).map (fun t => t.2.1)).getD prediction.persona) := by
  cases hp : prediction.persona <;>
    cases quiz_score <;>
      constructor <;>
        simp [applyGuardrails, overrideRulesSpec, checkMasterOverride,
          checkDeepDiverOverride, checkSkimmerReconsideration, hp,
          quizScoreProvidedBelow50, MASTER_MIN_QUIZ_SCORE,
          DEEP_DIVER_MIN_MATERIALS, SKIMMER_MIN_TIME_PER_MATERIAL] <;>
          split_ifs <;> simp_all <;> linarith

/-- C6: flag characterization of `LogicGuardrails.apply`.  The anxious flag
fires iff `late_night_ratio > 0.5` and `session_frequency > 0.3` (both
strict); the burnout flag fires iff `engagement_trend_encoded < 0.25`
(strict) and the previous persona is MASTER; the two flags are independent
of each other and of the override outcome (each is characterized by its own
inputs alone, so both can fire simultaneously); `needs_attention` holds
exactly when a flag fired or an override occurred. -/
theorem c6_flag_rules (prediction : ClassificationResult)
    (features : FeatureVector) (quiz_score : Option ℚ)
    (previous_persona : Option LearningPersona)
    (total_materials_viewed : Nat) (avg_time_per_material : ℚ) :
    ((applyGuardrails prediction features quiz_score previous_persona
        total_materials_viewed avg_time_per_material).flags.potential_anxious = true ↔
      (features.late_night_ratio > 0.5 ∧ features.session_frequency > 0.3)) ∧
    ((applyGuardrails prediction features quiz_score previous_persona
        total_materials_viewed avg_time_per_material).flags.potential_burnout = true ↔
      (features.engagement_trend_encoded < 0.25 ∧
        previous_persona = some LearningPersona.master)) ∧
    ((applyGuardrails prediction features quiz_score previous_persona
        total_materials_viewed avg_time_per_material).flags.needs_attention = true ↔
      ((applyGuardrails prediction features quiz_score previous_persona
          total_materials_viewed avg_time_per_material).flags.potential_anxious = true ∨
        (applyGuardrails prediction features quiz_score previous_persona
          total_materials_viewed avg_time_per_material).flags.potential_burnout = true ∨
        (applyGuardrails prediction features quiz_score previous_persona
          total_materials_viewed avg_time_per_material).was_overridden = true)) := by
  refine ⟨?_, ?_, ?_⟩ <;>
    simp [applyGuardrails, checkAnxiousFlags, checkBurnoutFlags,
      ANXIOUS_LATE_NIGHT_THRESHOLD] <;>
      split_ifs <;> simp_all

set_option maxHeartbeats 1600000 in
/-- Projection of the extracted `time_spent_norm` feature. -/
theorem extract_time_spent_norm (data : BehaviorData) :
    (extract data).time_spent_norm =
      normalize (data.material.total_time_spent_seconds : ℚ) MAX_TIME_SPENT := by
  simp [extract, extractMaterialFeatures]

set_option maxHeartbeats 1600000 in
/-- Projection of the extracted `scroll_depth` feature. -/
theorem extract_scroll_depth (data : BehaviorData) :
    (extract data).scroll_depth =
      max 0 (min 1 data.material.avg_scroll_depth) := by
  simp only [extract, extractMaterialFeatures]
  norm_num

set_option maxHeartbeats 1600000 in
/-- Projection of the extracted `bookmark_ratio` feature. -/
theorem extract_bookmark_ratio (data : BehaviorData) :
    (extract data).bookmark_ratio =
      min 1 (safeDivide (data.material.bookmark_count : ℚ)
        (data.material.total_views : ℚ) 0) := by
  simp only [extract, extractMaterialFeatures]
  norm_num

set_option maxHeartbeats 1600000 in
/-- Projection of the extracted `material_engagement_score` feature: the
weighted sum followed by the `[0,1]` clamp. -/
theorem extract_material_engagement_score (data : BehaviorData) :
    (extract data).material_engagement_score =
      max 0 (min 1 (0.4 * (extract data).time_spent_norm +
        0.4 * (extract data).scroll_depth +
        0.2 * (extract data).bookmark_ratio)) := by
  simp only [extract, extractMaterialFeatures]
  norm_num

/-- Material record realizing `time_spent_norm = 1`, `scroll_depth = 1`,
`bookmark_ratio = 1`. -/
def c8AllMaxInput : BehaviorData :=
  { user_id := "user-8"
    material := { total_time_spent_seconds := 36000, total_views := 50,
                  unique_materials_viewed := 50, bookmark_count := 100,
                  avg_scroll_depth := 1 } }

/-- Material record realizing all three operands at 0. -/
def c8AllZeroInput : BehaviorData :=
  { user_id := "user-8", material := { avg_scroll_depth := 0 } }

/-- Material record realizing all three operands at 0.5. -/
def c8AllHalfInput : BehaviorData :=
  { user_id := "user-8"
    material := { total_time_spent_seconds := 18000, total_views := 2,
                  bookmark_count := 1, avg_scroll_depth := 0.5 } }

set_option maxHeartbeats 1600000 in
/-- C8: `material_engagement_score` equals exactly
`0.4·time_spent_norm + 0.4·scroll_depth + 0.2·bookmark_ratio` for all
inputs — the post-computation clamp never changes the value because the
three operands are each in `[0,1]` and the weights sum to 1; in particular
all three at 1.0 give 1.0, all zero give 0.0, all 0.5 give 0.5. -/
theorem c8_material_engagement_score_formula :
    (∀ data : BehaviorData,
      (extract data).material_engagement_score =
        0.4 * (extract data).time_spent_norm +
          0.4 * (extract data).scroll_depth +
          0.2 * (extract data).bookmark_ratio) ∧
    (extract c8AllMaxInput).material_engagement_score = 1 ∧
    (extract c8AllZeroInput).material_engagement_score = 0 ∧
    (extract c8AllHalfInput).material_engagement_score = 0.5 := by
  refine ⟨?_, ?_, ?_, ?_⟩
  · intro data
    have htsn0 : 0 ≤ (extract data).time_spent_norm := by
      rw [extract_time_spent_norm]; exact normalize_nonneg _ _
    have htsn1 : (extract data).time_spent_norm ≤ 1 := by
      rw [extract_time_spent_norm]; exact normalize_le_one _ _
    have hsd0 : 0 ≤ (extract data).scroll_depth := by
      rw [extract_scroll_depth]; exact le_max_left 0 _
    have hsd1 : (extract data).scroll_depth ≤ 1 := by
      rw [extract_scroll_depth]
      exact max_le (by norm_num) (min_le_left 1 _)
    have hbr0 : 0 ≤ (extract data).bookmark_ratio := by
      rw [extract_bookmark_ratio]
      exact le_min (by norm_num)
        (safeDivide_nonneg (Nat.cast_nonneg _) (Nat.cast_nonneg _) (le_refl 0))
    have hbr1 : (extract data).bookmark_ratio ≤ 1 := by
      rw [extract_bookmark_ratio]; exact min_le_left 1 _
    rw [extract_material_engagement_score]
    exact clamp01_eq_self (by nlinarith) (by nlinarith)
  · norm_num [extract, extractMaterialFeatures, c8AllMaxInput, safeDivide,
      normalize, MAX_TIME_SPENT]
  · norm_num [extract, extractMaterialFeatures, c8AllZeroInput, safeDivide,
      normalize, MAX_TIME_SPENT]
  · norm_num [extract, extractMaterialFeatures, c8AllHalfInput, safeDivide,
      normalize, MAX_TIME_SPENT]

/-- Projection of the extracted `engagement_trend_encoded` feature: the
encoding (declining → 0.0, stable → 0.5, increasing → 1.0) of the computed
trend. -/
theorem extract_engagement_trend_encoded (data : BehaviorData) :
    (extract data).engagement_trend_encoded =
      (if calculateEngagementTrend data = EngagementTrend.declining then (0.0 : ℚ)
       else if calculateEngagementTrend data = EngagementTrend.stable then 0.5
       else 1.0) := by
  simp only [extract, extractActivityFeatures]

/-- The claim's independent-count form of the variance scoring group agrees
with the code's `if/elif` form (the two guards are mutually exclusive). -/
theorem trend_variance_pair (v : ℚ) :
    (if v > 5.0 then ((1 : Nat), (0 : Nat))
     else if v < 2.0 then (0, 1) else (0, 0)) =
      ((if v > 5.0 then 1 else 0), (if v < 2.0 then 1 else 0)) := by
  split_ifs <;> first | rfl | (exfalso; linarith)

/-- The claim's independent-count form of the active-days-ratio scoring
group agrees with the code's `if/elif` form. -/
theorem trend_active_days_pair (adr : ℚ) (ts : Nat) :
    (if adr < 0.3 ∧ ts > 0 then ((1 : Nat), (0 : Nat))
     else if adr > 0.6 then (0, 1) else (0, 0)) =
      ((if adr < 0.3 ∧ ts > 0 then 1 else 0), (if adr > 0.6 then 1 else 0)) := by
  split_ifs with hA hB <;> first | rfl | (exfalso; exact absurd hB (by linarith [hA.1]))

/-- The claim's independent-count form of the session-frequency scoring
group agrees with the code's `if/elif` form. -/
theorem trend_frequency_pair (sf : ℚ) (ad : Nat) :
    (if sf > 2.0 then ((0 : Nat), (1 : Nat))
     else if sf < 0.5 ∧ ad > 0 then (1, 0) else (0, 0)) =
      ((if sf < 0.5 ∧ ad > 0 then 1 else 0), (if sf > 2.0 then 1 else 0)) := by
  split_ifs with hA hB <;> first | rfl | (exfalso; exact absurd hA (by linarith [hB.1]))

/-- Encoding the three-way trend selection commutes with the score
comparison. -/
theorem trend_encode_select (d i : Nat) :
    (if (if d ≥ 2 then EngagementTrend.declining
         else if i ≥ 2 then EngagementTrend.increasing
         else EngagementTrend.stable) = EngagementTrend.declining then (0.0 : ℚ)
     else if (if d ≥ 2 then EngagementTrend.declining
              else if i ≥ 2 then EngagementTrend.increasing
              else EngagementTrend.stable) = EngagementTrend.stable then 0.5
     else 1.0) =
      (if d ≥ 2 then (0.0 : ℚ) else if i ≥ 2 then 1.0 else 0.5) := by
  split_ifs <;> simp_all

/-- The engagement-trend heuristic exactly as the claim states it: with no
sessions the result is stable (0.5) with no scoring; otherwise
`declining_score` independently counts (variance > 5.0),
(active_days_ratio < 0.3 and total_sessions > 0), (raw sessions-per-active-
day < 0.5 and active_days > 0) and (late_night_ratio > 0.4), while
`increasing_score` independently counts (variance < 2.0),
(active_days_ratio > 0.6) and (raw sessions-per-active-day > 2.0); then
declining_score ≥ 2 gives 0.0, else increasing_score ≥ 2 gives 1.0, else
0.5. -/
def engagementTrendSpecEncoded (data : BehaviorData) : ℚ :=
  let activity := data.activity
  if activity.total_sessions = 0 then 0.5
  else
    let session_frequency :=
      safeDivide (activity.total_sessions : ℚ) (activity.active_days : ℚ) 0.0
    let active_days_ratio :=
      safeDivide (activity.active_days : ℚ) (data.analysis_period_days : ℚ) 0.0
    let late_night_ratio :=
      safeDivide (activity.late_night_sessions : ℚ) (activity.total_sessions : ℚ) 0.0
    let declining_score : Nat :=
      (if activity.daily_activity_variance > 5.0 then 1 else 0) +
      (if active_days_ratio < 0.3 ∧ activity.total_sessions > 0 then 1 else 0) +
      (if session_frequency < 0.5 ∧ activity.active_days > 0 then 1 else 0) +
      (if late_night_ratio > 0.4 then 1 else 0)
    let increasing_score : Nat :=
      (if activity.daily_activity_variance < 2.0 then 1 else 0) +
      (if active_days_ratio > 0.6 then 1 else 0) +
      (if session_frequency > 2.0 then 1 else 0)
    if declining_score ≥ 2 then 0.0
    else if increasing_score ≥ 2 then 1.0
    else 0.5

set_option maxHeartbeats 1600000 in
/-- C5: `engagement_trend_encoded` is computed exactly by the stated
heuristic (`engagementTrendSpecEncoded`, transcribed from the claim) and
always takes a value in {0.0, 0.5, 1.0}. -/
theorem c5_engagement_trend_heuristic (data : BehaviorData) :
    (extract data).engagement_trend_encoded = engagementTrendSpecEncoded data ∧
    ((extract data).engagement_trend_encoded = 0 ∨
     (extract data).engagement_trend_encoded = 0.5 ∨
     (extract data).engagement_trend_encoded = 1) := by
  have hmain : (extract data).engagement_trend_encoded =
      engagementTrendSpecEncoded data := by
    rw [extract_engagement_trend_encoded]
    unfold calculateEngagementTrend engagementTrendSpecEncoded
    by_cases hts : data.activity.total_sessions = 0
    · simp [hts]
    · simp only [hts, if_false, ite_false]
      rw [trend_variance_pair, trend_active_days_pair, trend_frequency_pair]
      simp only [apply_ite (Prod.fst (α := Nat) (β := Nat)),
        apply_ite (Prod.snd (α := Nat) (β := Nat)), ite_self, add_zero]
      rw [trend_encode_select]
  refine ⟨hmain, ?_⟩
  rw [hmain]
  simp only [engagementTrendSpecEncoded]
  split_ifs <;> norm_num

/-- C3: COUNTEREXAMPLE.  The claim says that resolving an integer class
index with no externally supplied index-to-name mapping fails loudly.  In
fact `_convert_to_persona` silently falls back to the `LearningPersona` enum
declaration order: with an empty `persona_names` list, index 0 resolves to
SKIMMER instead of raising. -/
theorem c3_unmapped_index_resolves_silently :
    convertToPersona [] (PredictedClass.index 0) =
      Except.ok LearningPersona.skimmer := by
  rfl

/-- C3 (amended): with no mapping loaded, integer indices 0–9 silently
resolve through the enum declaration order; resolution fails loudly only
for an integer index outside 0–9; and when a mapping is supplied that
covers the index with a valid persona name, that name wins. -/
theorem c3_amended_index_resolution :
    (∀ n : Int, 0 ≤ n → n < 10 →
      convertToPersona [] (PredictedClass.index n) =
        Except.ok (LearningPersona.values.getD n.toNat LearningPersona.skimmer)) ∧
    (∀ n : Int, n < 0 ∨ 10 ≤ n →
      convertToPersona [] (PredictedClass.index n) =
        Except.error ("Cannot convert " ++ toString n ++ " to LearningPersona")) ∧
    (∀ (names : List String) (n : Int) (p : LearningPersona),
      0 ≤ n → n < (names.length : Int) →
      LearningPersona.ofValue? (names.getD n.toNat "") = some p →
      convertToPersona names (PredictedClass.index n) = Except.ok p) := by
  refine ⟨?_, ?_, ?_⟩
  · intro n h0 h10
    simp [convertToPersona, LearningPersona.values, h0, h10]
  · intro n h
    have hcond : ¬(0 ≤ n ∧ n < ((LearningPersona.values.length : Nat) : Int)) := by
      simp only [LearningPersona.values, List.length]
      omega
    simp only [convertToPersona]
    rw [if_neg (by simp), if_neg (by exact_mod_cast hcond)]
  · intro names n p h0 hlt hof
    have hne : names ≠ [] := by
      intro h
      subst h
      simp at hlt
      omega
    simp only [convertToPersona]
    rw [if_pos ⟨hne, h0, hlt⟩, hof]

/-- Witness for `c3_amended_index_resolution` at index 3 (fallback hit),
index 12 (out of range) and a singleton mapping. -/
theorem c3_amended_index_resolution_witness :
    ((0 : Int) ≤ 3 ∧ (3 : Int) < 10 ∧
      convertToPersona [] (PredictedClass.index 3) =
        Except.ok (LearningPersona.values.getD (Int.toNat 3) LearningPersona.skimmer)) ∧
    (((12 : Int) < 0 ∨ (10 : Int) ≤ 12) ∧
      convertToPersona [] (PredictedClass.index 12) =
        Except.error ("Cannot convert " ++ toString (12 : Int) ++ " to LearningPersona")) ∧
    ((0 : Int) ≤ 0 ∧ (0 : Int) < ((["lost"] : List String).length : Int) ∧
      LearningPersona.ofValue? ((["lost"] : List String).getD (Int.toNat 0) "") =
        some LearningPersona.lost ∧
      convertToPersona ["lost"] (PredictedClass.index 0) =
        Except.ok LearningPersona.lost) :=
  ⟨⟨by decide, by decide,
    c3_amended_index_resolution.1 3 (by decide) (by decide)⟩,
   ⟨Or.inr (by decide),
    c3_amended_index_resolution.2.1 12 (Or.inr (by decide))⟩,
   ⟨by decide, by decide, by decide,
    c3_amended_index_resolution.2.2 ["lost"] 0 LearningPersona.lost
      (by decide) (by decide) (by decide)⟩⟩

/-- C9: recommendation lookup for each of the 10 personas succeeds and
returns at least 3 recommendations with pairwise-distinct ids and priorities
running 1, 2, …; looking up any value outside the closed persona set raises
an error rather than returning a default bundle. -/
theorem c9_recommendation_lookup :
    (∀ p : LearningPersona, ∃ r : PersonaRecommendations,
      getRecommendations (PersonaKey.known p) = Except.ok r ∧
      3 ≤ r.recommendations.length ∧
      (r.recommendations.map Recommendation.id).Nodup ∧
      r.recommendations.map Recommendation.priority =
        List.range' 1 r.recommendations.length) ∧
    (∀ s : String, getRecommendations (PersonaKey.unknown s) =
      Except.error ("Unknown persona: " ++ s)) := by
  constructor
  · intro p
    cases p <;> exact ⟨_, rfl, by decide, by decide, by decide⟩
  · intro s
    rfl

/-- C10: in the prediction endpoint, the guardrail engine receives
`unique_materials_viewed` (not `total_views`) as the material count and
`total_time_spent_seconds / total_views` (0.0 when `total_views` is 0) as
the average time; consequently, when the classifier says DEEP_DIVER the
LOST override fires exactly when the count of distinct materials viewed is
below 3 — never depending on the raw view count — and when the classifier
says SKIMMER the DEEP_DIVER override fires exactly when there are views and
the per-view time exceeds 300 seconds. -/
theorem c10_guardrail_material_inputs
    (classify : FeatureVector → ClassificationResult)
    (behavior_data : BehaviorData) (quiz_score : Option ℚ)
    (previous_persona_str : Option String) :
    ((classify (extract behavior_data)).persona = LearningPersona.deep_diver →
      (((predictPersonaGuardrail classify behavior_data quiz_score
            previous_persona_str).override).map (fun o => o.rule_triggered) =
          some "deep_diver_low_material_count" ↔
        behavior_data.material.unique_materials_viewed < 3)) ∧
    ((classify (extract behavior_data)).persona = LearningPersona.skimmer →
      (((predictPersonaGuardrail classify behavior_data quiz_score
            previous_persona_str).override).map (fun o => o.rule_triggered) =
          some "skimmer_high_time_per_material" ↔
        (0 < behavior_data.material.total_views ∧
          (behavior_data.material.total_time_spent_seconds : ℚ) /
            (behavior_data.material.total_views : ℚ) > 300))) := by
  constructor
  · intro hp
    simp [predictPersonaGuardrail, applyGuardrails, checkMasterOverride,
      checkDeepDiverOverride, checkSkimmerReconsideration, hp,
      DEEP_DIVER_MIN_MATERIALS, SKIMMER_MIN_TIME_PER_MATERIAL] <;>
      split_ifs <;> simp_all
  · intro hp
    simp only [predictPersonaGuardrail, applyGuardrails, checkMasterOverride,
      checkDeepDiverOverride, checkSkimmerReconsideration, hp,
      DEEP_DIVER_MIN_MATERIALS, SKIMMER_MIN_TIME_PER_MATERIAL]
    split_ifs <;> simp_all <;> first | omega | norm_num at *

/-- Stub classifier returning a fixed persona regardless of features. -/
def c10Classifier (persona : LearningPersona) : FeatureVector → ClassificationResult :=
  fun _ =>
    { persona := persona
      confidence := 0.9
      probabilities := []
      is_low_confidence := false }

/-- Heavy raw view count but only two distinct materials. -/
def c10DeepDiverData : BehaviorData :=
  { user_id := "user-10"
    material := { total_views := 100, unique_materials_viewed := 2 } }

/-- Two views of 600 seconds each: 600s per material. -/
def c10SkimmerData : BehaviorData :=
  { user_id := "user-10"
    material := { total_time_spent_seconds := 1200, total_views := 2,
                  unique_materials_viewed := 2 } }

/-- Witness for `c10_guardrail_material_inputs`: a DEEP_DIVER classification
with 100 raw views but 2 distinct materials, and a SKIMMER classification at
600 seconds per view. -/
theorem c10_guardrail_material_inputs_witness :
    ((c10Classifier LearningPersona.deep_diver (extract c10DeepDiverData)).persona =
        LearningPersona.deep_diver ∧
      (((predictPersonaGuardrail (c10Classifier LearningPersona.deep_diver)
            c10DeepDiverData none none).override).map (fun o => o.rule_triggered) =
          some "deep_diver_low_material_count" ↔
        c10DeepDiverData.material.unique_materials_viewed < 3)) ∧
    ((c10Classifier LearningPersona.skimmer (extract c10SkimmerData)).persona =
        LearningPersona.skimmer ∧
      (((predictPersonaGuardrail (c10Classifier LearningPersona.skimmer)
            c10SkimmerData none none).override).map (fun o => o.rule_triggered) =
          some "skimmer_high_time_per_material" ↔
        (0 < c10SkimmerData.material.total_views ∧
          (c10SkimmerData.material.total_time_spent_seconds : ℚ) /
            (c10SkimmerData.material.total_views : ℚ) > 300))) :=
  ⟨⟨rfl, (c10_guardrail_material_inputs (c10Classifier LearningPersona.deep_diver)
      c10DeepDiverData none none).1 rfl⟩,
   ⟨rfl, (c10_guardrail_material_inputs (c10Classifier LearningPersona.skimmer)
      c10SkimmerData none none).2 rfl⟩⟩

end LearningPulse
